import Mathlib

/-!
Arilux AL-LC0X: remote code tables and fixture controller.

A shallow embedding of `Arilux.h`.  The header holds the pin and PWM
constants, the two remote code tables (`ARILUX_IR_CODE_KEY_*` under
`#ifdef IR_REMOTE`, `ARILUX_RF_CODE_KEY_*` under `#ifdef RF_REMOTE`), the
command enumeration, the `Color` struct and the declaration of class
`Arilux`.  Constants are natural numbers; the `uint8_t` fields and
parameters are natural numbers reduced modulo `2^8` where a value is
converted to the type.
-/

/-! ## Constants of the header -/

def ARILUX_RED_PIN : Nat := 14
def ARILUX_GREEN_PIN : Nat := 5
def ARILUX_BLUE_PIN : Nat := 12

def ARILUX_IR_PIN : Nat := 4
def ARILUX_RF_PIN : Nat := 4

def ARILUX_PWM_RANGE : Nat := 255
def ARILUX_PWM_FREQUENCY : Nat := 500

def ARILUX_BRIGHTNESS_STEP : Nat := 25

/-! ## Infrared remote (encoding: NEC), lines 37-62 -/

def ARILUX_IR_CODE_KEY_UP : Nat := 0xFF906F
def ARILUX_IR_CODE_KEY_DOWN : Nat := 0xFFB847
def ARILUX_IR_CODE_KEY_OFF : Nat := 0xFFF807
def ARILUX_IR_CODE_KEY_ON : Nat := 0xFFB04F
def ARILUX_IR_CODE_KEY_R : Nat := 0xFF9867
def ARILUX_IR_CODE_KEY_G : Nat := 0xFFD827
def ARILUX_IR_CODE_KEY_B : Nat := 0xFF8877
def ARILUX_IR_CODE_KEY_W : Nat := 0xFFA857
def ARILUX_IR_CODE_KEY_1 : Nat := 0xFFE817
def ARILUX_IR_CODE_KEY_2 : Nat := 0xFF48B7
def ARILUX_IR_CODE_KEY_3 : Nat := 0xFF6897
def ARILUX_IR_CODE_KEY_FLASH : Nat := 0xFFB24D
def ARILUX_IR_CODE_KEY_4 : Nat := 0xFF02FD
def ARILUX_IR_CODE_KEY_5 : Nat := 0xFF32CD
def ARILUX_IR_CODE_KEY_6 : Nat := 0xFF20DF
def ARILUX_IR_CODE_KEY_STROBE : Nat := 0xFF00FF
def ARILUX_IR_CODE_KEY_7 : Nat := 0xFF50AF
def ARILUX_IR_CODE_KEY_8 : Nat := 0xFF7887
def ARILUX_IR_CODE_KEY_9 : Nat := 0xFF708F
def ARILUX_IR_CODE_KEY_FADE : Nat := 0xFF58A7
def ARILUX_IR_CODE_KEY_10 : Nat := 0xFF38C7
def ARILUX_IR_CODE_KEY_11 : Nat := 0xFF28D7
def ARILUX_IR_CODE_KEY_12 : Nat := 0xFFF00F
def ARILUX_IR_CODE_KEY_SMOOTH : Nat := 0xFF30CF

/-- The keys of the infrared remote, one per `ARILUX_IR_CODE_KEY_*` define,
in the order of the defines (the 6x4 keypad read row by row). -/
inductive IRKey where
  | UP | DOWN | OFF | ON
  | R | G | B | W
  | K1 | K2 | K3 | FLASH
  | K4 | K5 | K6 | STROBE
  | K7 | K8 | K9 | FADE
  | K10 | K11 | K12 | SMOOTH
  deriving DecidableEq, Repr, Fintype

/-- The code the header gives to an infrared key. -/
def irCode : IRKey → Nat
  | .UP => ARILUX_IR_CODE_KEY_UP
  | .DOWN => ARILUX_IR_CODE_KEY_DOWN
  | .OFF => ARILUX_IR_CODE_KEY_OFF
  | .ON => ARILUX_IR_CODE_KEY_ON
  | .R => ARILUX_IR_CODE_KEY_R
  | .G => ARILUX_IR_CODE_KEY_G
  | .B => ARILUX_IR_CODE_KEY_B
  | .W => ARILUX_IR_CODE_KEY_W
  | .K1 => ARILUX_IR_CODE_KEY_1
  | .K2 => ARILUX_IR_CODE_KEY_2
  | .K3 => ARILUX_IR_CODE_KEY_3
  | .FLASH => ARILUX_IR_CODE_KEY_FLASH
  | .K4 => ARILUX_IR_CODE_KEY_4
  | .K5 => ARILUX_IR_CODE_KEY_5
  | .K6 => ARILUX_IR_CODE_KEY_6
  | .STROBE => ARILUX_IR_CODE_KEY_STROBE
  | .K7 => ARILUX_IR_CODE_KEY_7
  | .K8 => ARILUX_IR_CODE_KEY_8
  | .K9 => ARILUX_IR_CODE_KEY_9
  | .FADE => ARILUX_IR_CODE_KEY_FADE
  | .K10 => ARILUX_IR_CODE_KEY_10
  | .K11 => ARILUX_IR_CODE_KEY_11
  | .K12 => ARILUX_IR_CODE_KEY_12
  | .SMOOTH => ARILUX_IR_CODE_KEY_SMOOTH

/-- All infrared keys, in the order of the defines. -/
def irKeys : List IRKey :=
  [.UP, .DOWN, .OFF, .ON, .R, .G, .B, .W, .K1, .K2, .K3, .FLASH,
   .K4, .K5, .K6, .STROBE, .K7, .K8, .K9, .FADE, .K10, .K11, .K12, .SMOOTH]

/-! ## Radio-frequency remote (Chinese protocol 1), lines 84-106 -/

def ARILUX_RF_CODE_KEY_ON : Nat := 7808513
def ARILUX_RF_CODE_KEY_TOGGLE : Nat := 7808514
def ARILUX_RF_CODE_KEY_OFF : Nat := 7808515
def ARILUX_RF_CODE_KEY_SPEED_PLUS : Nat := 7808616
def ARILUX_RF_CODE_KEY_MODE_PLUS : Nat := 7808617
def ARILUX_RF_CODE_KEY_BRIGHT_PLUS : Nat := 7808618
def ARILUX_RF_CODE_KEY_SPEED_MINUS : Nat := 7808619
def ARILUX_RF_CODE_KEY_MODE_MINUS : Nat := 7808620
def ARILUX_RF_CODE_KEY_BRIGHT_MINUS : Nat := 7808621
def ARILUX_RF_CODE_KEY_RED : Nat := 7808622
def ARILUX_RF_CODE_KEY_GREEN : Nat := 7808623
def ARILUX_RF_CODE_KEY_BLUE : Nat := 7808624
def ARILUX_RF_CODE_KEY_ORANGE : Nat := 7808625
def ARILUX_RF_CODE_KEY_LTGRN : Nat := 7808626
def ARILUX_RF_CODE_KEY_LTBLUE : Nat := 7808627
def ARILUX_RF_CODE_KEY_AMBER : Nat := 7808628
def ARILUX_RF_CODE_KEY_CYAN : Nat := 7808629
def ARILUX_RF_CODE_KEY_PURPLE : Nat := 7808630
def ARILUX_RF_CODE_KEY_YELLOW : Nat := 7808631
def ARILUX_RF_CODE_KEY_PINK : Nat := 7808632
def ARILUX_RF_CODE_KEY_WHITE : Nat := 7808633

/-- The keys of the radio remote, one per `ARILUX_RF_CODE_KEY_*` define, in
the order of the defines (the 7x3 keypad read row by row). -/
inductive RFKey where
  | ON | TOGGLE | OFF
  | SPEED_PLUS | MODE_PLUS | BRIGHT_PLUS
  | SPEED_MINUS | MODE_MINUS | BRIGHT_MINUS
  | RED | GREEN | BLUE
  | ORANGE | LTGRN | LTBLUE
  | AMBER | CYAN | PURPLE
  | YELLOW | PINK | WHITE
  deriving DecidableEq, Repr, Fintype

/-- The code the header gives to a radio key. -/
def rfCode : RFKey → Nat
  | .ON => ARILUX_RF_CODE_KEY_ON
  | .TOGGLE => ARILUX_RF_CODE_KEY_TOGGLE
  | .OFF => ARILUX_RF_CODE_KEY_OFF
  | .SPEED_PLUS => ARILUX_RF_CODE_KEY_SPEED_PLUS
  | .MODE_PLUS => ARILUX_RF_CODE_KEY_MODE_PLUS
  | .BRIGHT_PLUS => ARILUX_RF_CODE_KEY_BRIGHT_PLUS
  | .SPEED_MINUS => ARILUX_RF_CODE_KEY_SPEED_MINUS
  | .MODE_MINUS => ARILUX_RF_CODE_KEY_MODE_MINUS
  | .BRIGHT_MINUS => ARILUX_RF_CODE_KEY_BRIGHT_MINUS
  | .RED => ARILUX_RF_CODE_KEY_RED
  | .GREEN => ARILUX_RF_CODE_KEY_GREEN
  | .BLUE => ARILUX_RF_CODE_KEY_BLUE
  | .ORANGE => ARILUX_RF_CODE_KEY_ORANGE
  | .LTGRN => ARILUX_RF_CODE_KEY_LTGRN
  | .LTBLUE => ARILUX_RF_CODE_KEY_LTBLUE
  | .AMBER => ARILUX_RF_CODE_KEY_AMBER
  | .CYAN => ARILUX_RF_CODE_KEY_CYAN
  | .PURPLE => ARILUX_RF_CODE_KEY_PURPLE
  | .YELLOW => ARILUX_RF_CODE_KEY_YELLOW
  | .PINK => ARILUX_RF_CODE_KEY_PINK
  | .WHITE => ARILUX_RF_CODE_KEY_WHITE

/-- All radio keys, row by row as in the layout comment of lines 64-82. -/
def rfKeys : List RFKey :=
  [.ON, .TOGGLE, .OFF, .SPEED_PLUS, .MODE_PLUS, .BRIGHT_PLUS,
   .SPEED_MINUS, .MODE_MINUS, .BRIGHT_MINUS, .RED, .GREEN, .BLUE,
   .ORANGE, .LTGRN, .LTBLUE, .AMBER, .CYAN, .PURPLE, .YELLOW, .PINK, .WHITE]

/-- The command byte of an NEC frame: bits 8..15 of the 24-bit code. -/
def necCommand (c : Nat) : Nat := (c >>> 8) &&& 0xFF

/-! ## Table lookup -/

/-- The result of looking a code up in a table: a key or the sentinel. -/
inductive Lookup (κ : Type) where
  | found (key : κ)
  | NOT_FOUND
  deriving DecidableEq, Repr

/-- Modelled from the spec: the lookup function is absent from `Arilux.h`,
which holds only the code constants.  Section 4.1: "given a code, return the
matching button identity or a NOT_FOUND sentinel if absent"; section 9: "a
static associative structure (mapping from integer to enumerated command)". -/
def lookup {κ : Type} : List (Nat × κ) → Nat → Lookup κ
  | [], _ => .NOT_FOUND
  | (c, k) :: rest, code => if c = code then .found k else lookup rest code

/-- The infrared table: each key of the remote with its code of the header. -/
def irTable : List (Nat × IRKey) := irKeys.map fun k => (irCode k, k)

/-- The radio table: each key of the remote with its code of the header. -/
def rfTable : List (Nat × RFKey) := rfKeys.map fun k => (rfCode k, k)

/-- Lookup in the infrared domain. -/
def lookupIR (code : Nat) : Lookup IRKey := lookup irTable code

/-- Lookup in the radio domain. -/
def lookupRF (code : Nat) : Lookup RFKey := lookup rfTable code

/-! ## The fixture controller

`Arilux.h` declares class `Arilux` (lines 121-145): its fields and the
signatures of its methods.  The method bodies live in `Arilux.cpp`, which is
absent; they are modelled from the specification
(section 4.2, "Operations and contracts", and section 3).  The private
methods `setState` and the four-argument `setColor` are declared in the
header and described nowhere; they are not modelled.  The `uint8_t` returned
by each mutating method is not modelled either: the table of the specification
and its "command-result semantics" paragraph disagree on it, and no property
below depends on it. -/

/-- The command enumeration of lines 108-113. -/
inductive Cmd where
  | ARILUX_CMD_NOT_DEFINED
  | ARILUX_CMD_STATE_CHANGED
  | ARILUX_CMD_BRIGHTNESS_CHANGED
  | ARILUX_CMD_COLOR_CHANGED
  deriving DecidableEq, Repr

/-- The struct of lines 115-119: three `uint8_t` channels. -/
structure Color where
  red : Nat
  green : Nat
  blue : Nat
  deriving DecidableEq, Repr

/-- Modelled from the spec: the two values of the fixture state are not named
in `Arilux.h`, which stores the state in the `uint8_t` field `m_state`; their
encoding belongs to the absent `Arilux.cpp`.  Section 3 makes it an
enumeration of the two values OFF and ON. -/
inductive FixtureState where
  | OFF
  | ON
  deriving DecidableEq, Repr

/-- The private fields of class `Arilux`, lines 137-142. -/
structure Arilux where
  m_redPin : Nat
  m_greenPin : Nat
  m_bluePin : Nat
  m_state : FixtureState
  m_brightness : Nat
  m_color : Color
  deriving DecidableEq, Repr

/-- One write to the PWM peripheral: "set duty for channel" (section 6). -/
structure PwmWrite where
  pin : Nat
  duty : Nat
  deriving DecidableEq, Repr

/-- The PWM peripheral after a sequence of writes, oldest first: each write
replaces the duty of its pin. -/
def applyWrites (hw : Nat → Nat) : List PwmWrite → Nat → Nat
  | [] => hw
  | w :: ws => applyWrites (fun p => if p = w.pin then w.duty else hw p) ws

/-- Conversion of an integer argument to a `uint8_t` parameter: the value
modulo `2^8`.  Every parameter of lines 131 and 135 is declared `uint8_t`. -/
def toUint8 (v : Int) : Nat := (v % 256).toNat

/-- Modelled from the spec: the clamp of section 7 ("must be clamped to the
valid range rather than rejected") is part of the absent `Arilux.cpp`. -/
def clamp (v : Int) : Nat := (max 0 (min v 255)).toNat

/-- Modelled from the spec: the duty computation is part of the absent
`Arilux.cpp`.  Section 3: "duty = color.channel * brightness / 255". -/
def dutyOf (channel brightness : Nat) : Nat := channel * brightness / 255

namespace Arilux

/-- The invariant of the `uint8_t` fields: each holds a value below `2^8`. -/
def WellFormed (self : Arilux) : Prop :=
  self.m_redPin < 256 ∧ self.m_greenPin < 256 ∧ self.m_bluePin < 256 ∧
  self.m_brightness < 256 ∧
  self.m_color.red < 256 ∧ self.m_color.green < 256 ∧ self.m_color.blue < 256

instance (self : Arilux) : Decidable self.WellFormed := by
  unfold WellFormed; infer_instance

/-- Modelled from the spec: the recomputation of the three duties is part of
the absent `Arilux.cpp`.  Section 4.2: "recompute & write PWM duties from
stored brightness/color". -/
def dutyWrites (self : Arilux) : List PwmWrite :=
  [⟨self.m_redPin, dutyOf self.m_color.red self.m_brightness⟩,
   ⟨self.m_greenPin, dutyOf self.m_color.green self.m_brightness⟩,
   ⟨self.m_bluePin, dutyOf self.m_color.blue self.m_brightness⟩]

/-- Modelled from the spec: the writes of `turnOff` are part of the absent
`Arilux.cpp`.  Section 4.2: "write zero duty to all three channels". -/
def zeroWrites (self : Arilux) : List PwmWrite :=
  [⟨self.m_redPin, 0⟩, ⟨self.m_greenPin, 0⟩, ⟨self.m_bluePin, 0⟩]

/-- Modelled from the spec: the body of the method declared on line 125 is in
the absent `Arilux.cpp`.  "read current FixtureState". -/
def getState (self : Arilux) : FixtureState := self.m_state

/-- Modelled from the spec: the body of the method declared on line 128 is in
the absent `Arilux.cpp`.  "read current brightness". -/
def getBrightness (self : Arilux) : Nat := self.m_brightness

/-- Modelled from the spec: the body of the method declared on line 132 is in
the absent `Arilux.cpp`.  "read stored per-channel color component". -/
def getRedValue (self : Arilux) : Nat := self.m_color.red

/-- Modelled from the spec: the body of the method declared on line 133 is in
the absent `Arilux.cpp`.  "read stored per-channel color component". -/
def getGreenValue (self : Arilux) : Nat := self.m_color.green

/-- Modelled from the spec: the body of the method declared on line 134 is in
the absent `Arilux.cpp`.  "read stored per-channel color component". -/
def getBlueValue (self : Arilux) : Nat := self.m_color.blue

/-- Modelled from the spec: the body of the method declared on line 126 is in
the absent `Arilux.cpp`.  "if currently OFF, set state ON, recompute & write PWM duties
from stored brightness/color; if already ON, no-op".  The result is the new
object and the PWM writes the call issues. -/
def turnOn (self : Arilux) : Arilux × List PwmWrite :=
  match self.m_state with
  | .OFF =>
    let self' := { self with m_state := .ON }
    (self', self'.dutyWrites)
  | .ON => (self, [])

/-- Modelled from the spec: the body of the method declared on line 127 is in
the absent `Arilux.cpp`.  "set state OFF, write zero duty to all three channels;
idempotent if already OFF". -/
def turnOff (self : Arilux) : Arilux × List PwmWrite :=
  ({ self with m_state := .OFF }, self.zeroWrites)

/-- Modelled from the spec: the body of the method declared on line 131 is in
the absent `Arilux.cpp`.  "set brightness exactly; recompute PWM if state is ON", with
the input clamped to the valid range ("this operation clamps internally").
The argument `v` is the integer the caller passes; the header declares the
parameter `uint8_t p_brightness`, so the body receives `v` converted. -/
def setBrightness (self : Arilux) (v : Int) : Arilux × List PwmWrite :=
  let p_brightness := toUint8 v
  let self' := { self with m_brightness := clamp p_brightness }
  match self'.m_state with
  | .ON => (self', self'.dutyWrites)
  | .OFF => (self', [])

/-- Modelled from the spec: the body of the method declared on line 129 is in
the absent `Arilux.cpp`.  "raise brightness by the fixed step (25), clamped to 255;
recompute PWM if state is ON".  The sum is computed in `int`, as C promotes
the `uint8_t` operand. -/
def increaseBrightness (self : Arilux) : Arilux × List PwmWrite :=
  let self' := { self with
    m_brightness := clamp ((self.m_brightness : Int) + ARILUX_BRIGHTNESS_STEP) }
  match self'.m_state with
  | .ON => (self', self'.dutyWrites)
  | .OFF => (self', [])

/-- Modelled from the spec: the body of the method declared on line 130 is in
the absent `Arilux.cpp`.  "lower brightness by the fixed step, clamped to 0; recompute
PWM if state is ON".  The difference is computed in `int`. -/
def decreaseBrightness (self : Arilux) : Arilux × List PwmWrite :=
  let self' := { self with
    m_brightness := clamp ((self.m_brightness : Int) - ARILUX_BRIGHTNESS_STEP) }
  match self'.m_state with
  | .ON => (self', self'.dutyWrites)
  | .OFF => (self', [])

/-- Modelled from the spec: the body of the method declared on line 135 is in
the absent `Arilux.cpp`.  "replace stored Color; if state is ON, recompute and write PWM
duties scaled by current brightness; if state is OFF, store the color WITHOUT
writing to hardware (retained for the next turnOn)", each component clamped
to the valid range.  The arguments `r`, `g`, `b` are the integers the caller
passes; the header declares the parameters `uint8_t p_red`, `p_green`,
`p_blue`, so the body receives them converted. -/
def setColor (self : Arilux) (r g b : Int) : Arilux × List PwmWrite :=
  let p_red := toUint8 r
  let p_green := toUint8 g
  let p_blue := toUint8 b
  let self' := { self with
    m_color := ⟨clamp p_red, clamp p_green, clamp p_blue⟩ }
  match self'.m_state with
  | .ON => (self', self'.dutyWrites)
  | .OFF => (self', [])

/-- The initial state of the end-to-end example of section 8: "initial state
OFF, brightness 255, color (0,0,0)", on the pins of lines 7-9. -/
def exampleInitial : Arilux :=
  { m_redPin := ARILUX_RED_PIN, m_greenPin := ARILUX_GREEN_PIN,
    m_bluePin := ARILUX_BLUE_PIN, m_state := .OFF, m_brightness := 255,
    m_color := ⟨0, 0, 0⟩ }

/-- The state of the end-to-end example after `setColor(255,0,0)` and
`turnOn`: ON, brightness 255, colour (255,0,0). -/
def exampleOn : Arilux :=
  { exampleInitial with m_state := .ON, m_color := ⟨255, 0, 0⟩ }

/-- The duty law for the object `self` and the writes `ws` of one call: one
write per channel, on the pin of the channel, of the stored colour component times
the stored brightness divided by 255, each within the PWM range. -/
def DutyLaw (self : Arilux) (ws : List PwmWrite) : Prop :=
  ws = [⟨self.m_redPin, self.m_color.red * self.m_brightness / 255⟩,
        ⟨self.m_greenPin, self.m_color.green * self.m_brightness / 255⟩,
        ⟨self.m_bluePin, self.m_color.blue * self.m_brightness / 255⟩] ∧
  ∀ w ∈ ws, w.duty ≤ ARILUX_PWM_RANGE

end Arilux

/-! ## Auxiliary facts -/

theorem toUint8_lt (v : Int) : toUint8 v < 256 := by
  unfold toUint8; omega

theorem toUint8_of_range (v : Int) (h0 : 0 ≤ v) (h1 : v ≤ 255) :
    (toUint8 v : Int) = v := by
  unfold toUint8; omega

theorem toUint8_natCast (n : Nat) (h : n < 256) : toUint8 (n : Int) = n := by
  unfold toUint8; omega

theorem clamp_of_lt (n : Nat) (h : n < 256) : clamp (n : Int) = n := by
  unfold clamp; omega

theorem clamp_le (v : Int) : clamp v ≤ 255 := by
  unfold clamp; omega

theorem clamp_toUint8 (v : Int) : clamp (toUint8 v : Int) = toUint8 v :=
  clamp_of_lt _ (toUint8_lt v)

theorem dutyOf_le (c b : Nat) (hc : c < 256) (hb : b < 256) : dutyOf c b ≤ 255 := by
  unfold dutyOf
  have h : c * b ≤ 255 * 255 := Nat.mul_le_mul (by omega) (by omega)
  omega

theorem lookup_not_found {κ : Type} (t : List (Nat × κ)) (c : Nat)
    (h : ∀ p ∈ t, p.1 ≠ c) : lookup t c = .NOT_FOUND := by
  induction t with
  | nil => rfl
  | cons p rest ih =>
    obtain ⟨a, k⟩ := p
    have ha : a ≠ c := h (a, k) (List.mem_cons_self _ _)
    simp only [lookup, if_neg ha]
    exact ih fun q hq => h q (List.mem_cons_of_mem _ hq)

theorem lookup_found_or {κ : Type} (t : List (Nat × κ)) (c : Nat) :
    lookup t c = .NOT_FOUND ∨ ∃ k, lookup t c = .found k ∧ (c, k) ∈ t := by
  induction t with
  | nil => exact Or.inl rfl
  | cons p rest ih =>
    obtain ⟨a, k⟩ := p
    by_cases ha : a = c
    · right
      refine ⟨k, ?_, ?_⟩
      · simp only [lookup, if_pos ha]
      · rw [ha]; exact List.mem_cons_self _ _
    · simp only [lookup, if_neg ha]
      rcases ih with h | ⟨k', h1, h2⟩
      · exact Or.inl h
      · exact Or.inr ⟨k', h1, List.mem_cons_of_mem _ h2⟩

theorem mem_irTable (c : Nat) (k : IRKey) (h : (c, k) ∈ irTable) : irCode k = c := by
  unfold irTable at h
  rw [List.mem_map] at h
  obtain ⟨k', _, hk⟩ := h
  cases hk; rfl

theorem mem_rfTable (c : Nat) (k : RFKey) (h : (c, k) ∈ rfTable) : rfCode k = c := by
  unfold rfTable at h
  rw [List.mem_map] at h
  obtain ⟨k', _, hk⟩ := h
  cases hk; rfl

theorem Arilux.turnOn_off (s : Arilux) (h : s.m_state = .OFF) :
    s.turnOn = ({ s with m_state := .ON }, ({ s with m_state := .ON } : Arilux).dutyWrites) := by
  simp only [Arilux.turnOn, h]

theorem Arilux.turnOn_on (s : Arilux) (h : s.m_state = .ON) : s.turnOn = (s, []) := by
  simp only [Arilux.turnOn, h]

theorem Arilux.setBrightness_fst (s : Arilux) (v : Int) :
    (s.setBrightness v).1 = { s with m_brightness := toUint8 v } := by
  simp only [Arilux.setBrightness, clamp_toUint8]
  split <;> rfl

theorem Arilux.setBrightness_on (s : Arilux) (v : Int) (h : s.m_state = .ON) :
    (s.setBrightness v).2 = (s.setBrightness v).1.dutyWrites := by
  simp only [Arilux.setBrightness, h]

theorem Arilux.setBrightness_off (s : Arilux) (v : Int) (h : s.m_state = .OFF) :
    (s.setBrightness v).2 = [] := by
  simp only [Arilux.setBrightness, h]

theorem Arilux.setColor_fst (s : Arilux) (r g b : Int) :
    (s.setColor r g b).1 = { s with m_color := ⟨toUint8 r, toUint8 g, toUint8 b⟩ } := by
  simp only [Arilux.setColor, clamp_toUint8]
  split <;> rfl

theorem Arilux.setColor_on (s : Arilux) (r g b : Int) (h : s.m_state = .ON) :
    (s.setColor r g b).2 = (s.setColor r g b).1.dutyWrites := by
  simp only [Arilux.setColor, h]

theorem Arilux.setColor_off (s : Arilux) (r g b : Int) (h : s.m_state = .OFF) :
    (s.setColor r g b).2 = [] := by
  simp only [Arilux.setColor, h]

theorem Arilux.increaseBrightness_fst (s : Arilux) :
    s.increaseBrightness.1 = { s with
      m_brightness := clamp ((s.m_brightness : Int) + ARILUX_BRIGHTNESS_STEP) } := by
  simp only [Arilux.increaseBrightness]
  split <;> rfl

theorem Arilux.increaseBrightness_on (s : Arilux) (h : s.m_state = .ON) :
    s.increaseBrightness.2 = s.increaseBrightness.1.dutyWrites := by
  simp only [Arilux.increaseBrightness, h]

theorem Arilux.decreaseBrightness_fst (s : Arilux) :
    s.decreaseBrightness.1 = { s with
      m_brightness := clamp ((s.m_brightness : Int) - ARILUX_BRIGHTNESS_STEP) } := by
  simp only [Arilux.decreaseBrightness]
  split <;> rfl

theorem Arilux.decreaseBrightness_on (s : Arilux) (h : s.m_state = .ON) :
    s.decreaseBrightness.2 = s.decreaseBrightness.1.dutyWrites := by
  simp only [Arilux.decreaseBrightness, h]

theorem Arilux.wellFormed_brightness (s : Arilux) (n : Nat) (h : s.WellFormed)
    (hn : n < 256) : ({ s with m_brightness := n } : Arilux).WellFormed := by
  obtain ⟨h1, h2, h3, _, h5, h6, h7⟩ := h
  exact ⟨h1, h2, h3, hn, h5, h6, h7⟩

theorem Arilux.wellFormed_color (s : Arilux) (r g b : Nat) (h : s.WellFormed)
    (hr : r < 256) (hg : g < 256) (hb : b < 256) :
    ({ s with m_color := ⟨r, g, b⟩ } : Arilux).WellFormed := by
  obtain ⟨h1, h2, h3, h4, _, _, _⟩ := h
  exact ⟨h1, h2, h3, h4, hr, hg, hb⟩

theorem Arilux.wellFormed_state (s : Arilux) (st : FixtureState) (h : s.WellFormed) :
    ({ s with m_state := st } : Arilux).WellFormed := h

theorem dutyWrites_law (s : Arilux) (h : s.WellFormed) : s.DutyLaw s.dutyWrites := by
  obtain ⟨_, _, _, hb, hr, hg, hbl⟩ := h
  refine ⟨rfl, ?_⟩
  intro w hw
  simp only [Arilux.dutyWrites, List.mem_cons, List.mem_singleton, List.not_mem_nil,
    or_false] at hw
  rcases hw with rfl | rfl | rfl
  · exact dutyOf_le _ _ hr hb
  · exact dutyOf_le _ _ hg hb
  · exact dutyOf_le _ _ hbl hb

/-! ## The remote code tables -/

namespace Arilux

/-- C1: the 24 infrared codes are pairwise distinct: two different keys of
the infrared table never carry the same code, so a code determines at most
one infrared key. -/
theorem ir_codes_pairwise_distinct (k₁ k₂ : IRKey) (h : k₁ ≠ k₂) :
    irCode k₁ ≠ irCode k₂ := by
  revert k₁ k₂
  decide

theorem ir_codes_pairwise_distinct_witness :
    IRKey.UP ≠ IRKey.DOWN ∧ irCode IRKey.UP ≠ irCode IRKey.DOWN :=
  ⟨by decide, ir_codes_pairwise_distinct IRKey.UP IRKey.DOWN (by decide)⟩

/-- C2: the 21 radio codes are pairwise distinct: two different keys of the
radio table never carry the same code. -/
theorem rf_codes_pairwise_distinct (k₁ k₂ : RFKey) (h : k₁ ≠ k₂) :
    rfCode k₁ ≠ rfCode k₂ := by
  revert k₁ k₂
  decide

theorem rf_codes_pairwise_distinct_witness :
    RFKey.ON ≠ RFKey.TOGGLE ∧ rfCode RFKey.ON ≠ rfCode RFKey.TOGGLE :=
  ⟨by decide, rf_codes_pairwise_distinct RFKey.ON RFKey.TOGGLE (by decide)⟩

/-- C3: the two tables are disjoint: every radio code is strictly smaller
than every infrared code, so no infrared code equals a radio code. -/
theorem ir_rf_tables_disjoint (i : IRKey) (r : RFKey) :
    rfCode r < irCode i ∧ irCode i ≠ rfCode r := by
  revert i r
  decide

/-- C4: lookup is total and exact: the code of every infrared key is found
as that key; a code that belongs to neither table is NOT_FOUND in either
domain; and for every input the lookup returns either NOT_FOUND or a key
whose code is the input. -/
theorem lookup_total_exact :
    (∀ k : IRKey, lookupIR (irCode k) = .found k) ∧
    (∀ c : Nat, (∀ k, irCode k ≠ c) → (∀ k, rfCode k ≠ c) →
      lookupIR c = .NOT_FOUND ∧ lookupRF c = .NOT_FOUND) ∧
    (∀ c : Nat, lookupIR c = .NOT_FOUND ∨ ∃ k, lookupIR c = .found k ∧ irCode k = c) ∧
    (∀ c : Nat, lookupRF c = .NOT_FOUND ∨ ∃ k, lookupRF c = .found k ∧ rfCode k = c) := by
  refine ⟨by decide, ?_, ?_, ?_⟩
  · intro c hi hr
    constructor
    · apply lookup_not_found
      intro p hp heq
      obtain ⟨a, k⟩ := p
      exact hi k ((mem_irTable a k hp).trans heq)
    · apply lookup_not_found
      intro p hp heq
      obtain ⟨a, k⟩ := p
      exact hr k ((mem_rfTable a k hp).trans heq)
  · intro c
    rcases lookup_found_or irTable c with h | ⟨k, h1, h2⟩
    · exact Or.inl h
    · exact Or.inr ⟨k, h1, mem_irTable c k h2⟩
  · intro c
    rcases lookup_found_or rfTable c with h | ⟨k, h1, h2⟩
    · exact Or.inl h
    · exact Or.inr ⟨k, h1, mem_rfTable c k h2⟩

theorem lookup_total_exact_witness :
    (∀ k, irCode k ≠ 0) ∧ (∀ k, rfCode k ≠ 0) ∧
    lookupIR 0 = .NOT_FOUND ∧ lookupRF 0 = .NOT_FOUND :=
  ⟨by decide, by decide, lookup_total_exact.2.1 0 (by decide) (by decide)⟩

/-- C9: every infrared code is a well-formed NEC frame of one remote: it
fits in 24 bits, bits 16..23 are 0xFF, and the low byte is the complement of
the command byte in bits 8..15; the command bytes of two different keys
differ. -/
theorem ir_codes_nec_frames :
    (∀ k : IRKey, irCode k < 2 ^ 24 ∧ (irCode k >>> 16) &&& 0xFF = 0xFF ∧
      ((irCode k >>> 8) &&& 0xFF) ^^^ (irCode k &&& 0xFF) = 0xFF) ∧
    (∀ k₁ k₂ : IRKey, k₁ ≠ k₂ → necCommand (irCode k₁) ≠ necCommand (irCode k₂)) := by
  constructor <;> decide

theorem ir_codes_nec_frames_witness :
    IRKey.K4 ≠ IRKey.STROBE ∧
    necCommand (irCode IRKey.K4) ≠ necCommand (irCode IRKey.STROBE) :=
  ⟨by decide, ir_codes_nec_frames.2 IRKey.K4 IRKey.STROBE (by decide)⟩

/-- C10: every radio code has the address 0x7726 above its low byte, so it
lies in [7808512, 7808768), fits in 24 bits and is identified by its low
byte; the keys listed row by row in keypad order are all the keys, their
codes increase strictly, and the 18 codes from SPEED_PLUS to WHITE are the
consecutive integers 7808616..7808633. -/
theorem rf_codes_address_and_order :
    (∀ k : RFKey, rfCode k / 256 = 0x7726 ∧ 7808512 ≤ rfCode k ∧
      rfCode k < 7808768 ∧ rfCode k < 2 ^ 24) ∧
    (∀ k₁ k₂ : RFKey, k₁ ≠ k₂ → rfCode k₁ % 256 ≠ rfCode k₂ % 256) ∧
    (∀ k : RFKey, k ∈ rfKeys) ∧
    (rfKeys.map rfCode).Pairwise (· < ·) ∧
    rfKeys.take 3 = [.ON, .TOGGLE, .OFF] ∧
    (rfKeys.drop 3).head? = some .SPEED_PLUS ∧
    (rfKeys.drop 3).getLast? = some .WHITE ∧
    (rfKeys.drop 3).map rfCode = (List.range 18).map (fun i => 7808616 + i) ∧
    ((List.range 18).map (fun i => 7808616 + i)).getLast? = some 7808633 := by
  refine ⟨by decide, by decide, by decide, by decide, by decide, by decide, by decide,
    by decide, by decide⟩

theorem rf_codes_address_and_order_witness :
    RFKey.OFF ≠ RFKey.SPEED_PLUS ∧
    rfCode RFKey.OFF % 256 ≠ rfCode RFKey.SPEED_PLUS % 256 :=
  ⟨by decide, rf_codes_address_and_order.2.1 RFKey.OFF RFKey.SPEED_PLUS (by decide)⟩

/-! ## The fixture controller -/

/-- C5: retained colour while off: in a state with the fixture OFF,
`setColor(r,g,b)` with 8-bit components makes the three getters return r, g
and b, leaves the state OFF and the brightness unchanged, and issues no PWM
write, so the duty of every channel is unchanged; the following `turnOn`
switches the fixture ON and writes to each channel the duty derived from
(r,g,b) and the current brightness. -/
theorem setColor_off_retains (s : Arilux) (r g b : Nat) (hoff : s.m_state = .OFF)
    (hr : r < 256) (hg : g < 256) (hb : b < 256) :
    (s.setColor r g b).1.getRedValue = r ∧
    (s.setColor r g b).1.getGreenValue = g ∧
    (s.setColor r g b).1.getBlueValue = b ∧
    (s.setColor r g b).1.getState = .OFF ∧
    (s.setColor r g b).1.getBrightness = s.getBrightness ∧
    (s.setColor r g b).2 = [] ∧
    (∀ hw : Nat → Nat, applyWrites hw (s.setColor r g b).2 = hw) ∧
    (s.setColor r g b).1.turnOn.1.getState = .ON ∧
    (s.setColor r g b).1.turnOn.2 =
      [⟨s.m_redPin, r * s.m_brightness / 255⟩,
       ⟨s.m_greenPin, g * s.m_brightness / 255⟩,
       ⟨s.m_bluePin, b * s.m_brightness / 255⟩] := by
  have e : (s.setColor r g b) = ({ s with m_color := ⟨r, g, b⟩ }, []) := by
    simp only [setColor, hoff, toUint8_natCast r hr, toUint8_natCast g hg,
      toUint8_natCast b hb, clamp_of_lt r hr, clamp_of_lt g hg, clamp_of_lt b hb]
  rw [e]
  simp [getRedValue, getGreenValue, getBlueValue, getState, getBrightness, hoff, turnOn,
    dutyWrites, dutyOf, applyWrites]

theorem setColor_off_retains_witness :
    exampleInitial.m_state = .OFF ∧
    (exampleInitial.setColor (10 : Nat) (20 : Nat) (30 : Nat)).2 = [] ∧
    (exampleInitial.setColor (10 : Nat) (20 : Nat) (30 : Nat)).1.turnOn.2 =
      [⟨exampleInitial.m_redPin, 10 * exampleInitial.m_brightness / 255⟩,
       ⟨exampleInitial.m_greenPin, 20 * exampleInitial.m_brightness / 255⟩,
       ⟨exampleInitial.m_bluePin, 30 * exampleInitial.m_brightness / 255⟩] :=
  have h := setColor_off_retains exampleInitial 10 20 30 rfl (by decide) (by decide)
    (by decide)
  ⟨rfl, h.2.2.2.2.2.1, h.2.2.2.2.2.2.2.2⟩

/-- C6: brightness steps saturate: from a brightness b in [0,255],
`increaseBrightness` leaves min(b + 25, 255) and `decreaseBrightness` leaves
max(b - 25, 0), both again in [0,255], the step being
ARILUX_BRIGHTNESS_STEP = 25; from 240 the result is 255, neither 265 nor
265 mod 256 = 9, and from 10 the result is 0. -/
theorem brightness_steps_saturate (s : Arilux) (hb : s.m_brightness ≤ 255) :
    ARILUX_BRIGHTNESS_STEP = 25 ∧
    s.increaseBrightness.1.getBrightness
      = min (s.m_brightness + ARILUX_BRIGHTNESS_STEP) 255 ∧
    (s.decreaseBrightness.1.getBrightness : Int)
      = max ((s.m_brightness : Int) - ARILUX_BRIGHTNESS_STEP) 0 ∧
    s.increaseBrightness.1.getBrightness ≤ 255 ∧
    s.decreaseBrightness.1.getBrightness ≤ 255 ∧
    ({ s with m_brightness := 240 } : Arilux).increaseBrightness.1.getBrightness = 255 ∧
    (240 + ARILUX_BRIGHTNESS_STEP = 265 ∧ 265 % 256 = 9) ∧
    ({ s with m_brightness := 10 } : Arilux).decreaseBrightness.1.getBrightness = 0 := by
  simp only [increaseBrightness_fst, decreaseBrightness_fst, getBrightness,
    ARILUX_BRIGHTNESS_STEP, clamp]
  refine ⟨trivial, ?_, ?_, ?_, ?_, ?_, ⟨?_, ?_⟩, ?_⟩
  all_goals first | omega | exact True.intro

theorem brightness_steps_saturate_witness :
    exampleOn.m_brightness ≤ 255 ∧
    exampleOn.increaseBrightness.1.getBrightness
      = min (exampleOn.m_brightness + ARILUX_BRIGHTNESS_STEP) 255 :=
  ⟨Nat.le_refl 255, (brightness_steps_saturate exampleOn (Nat.le_refl 255)).2.1⟩

/-- C7: the duty law.  In a well-formed state: `turnOn` from OFF leaves the
fixture ON and writes, on each channel, colour component times brightness
divided by 255 for the stored colour and brightness, a value in
[0, ARILUX_PWM_RANGE]; `turnOn` when already ON writes nothing and changes
nothing; with the fixture ON, `setColor`, `setBrightness`,
`increaseBrightness` and `decreaseBrightness` leave it ON and write the
duties of the law for the colour and brightness they store.  With
brightness 0 all three duties are 0 for every stored colour, with brightness
255 each duty is its stored colour component, and colour (255,0,0) at
brightness 255 gives the duties (255,0,0). -/
theorem duty_law (s : Arilux) (hwf : s.WellFormed) :
    ARILUX_PWM_RANGE = 255 ∧
    (s.m_state = .OFF → s.turnOn.1.getState = .ON ∧ s.turnOn.1.DutyLaw s.turnOn.2) ∧
    (s.m_state = .ON → s.turnOn = (s, [])) ∧
    (s.m_state = .ON → ∀ r g b : Int, (s.setColor r g b).1.getState = .ON ∧
      (s.setColor r g b).1.DutyLaw (s.setColor r g b).2) ∧
    (s.m_state = .ON → ∀ v : Int, (s.setBrightness v).1.getState = .ON ∧
      (s.setBrightness v).1.DutyLaw (s.setBrightness v).2) ∧
    (s.m_state = .ON → s.increaseBrightness.1.getState = .ON ∧
      s.increaseBrightness.1.DutyLaw s.increaseBrightness.2) ∧
    (s.m_state = .ON → s.decreaseBrightness.1.getState = .ON ∧
      s.decreaseBrightness.1.DutyLaw s.decreaseBrightness.2) ∧
    (s.m_state = .OFF → (s.setBrightness 0).1.turnOn.2 = s.zeroWrites) ∧
    (s.m_state = .ON → (s.setBrightness 0).2 = s.zeroWrites) ∧
    (s.m_state = .OFF → (s.setBrightness 255).1.turnOn.2 =
      [⟨s.m_redPin, s.m_color.red⟩, ⟨s.m_greenPin, s.m_color.green⟩,
       ⟨s.m_bluePin, s.m_color.blue⟩]) ∧
    (s.m_state = .ON → (s.setBrightness 255).2 =
      [⟨s.m_redPin, s.m_color.red⟩, ⟨s.m_greenPin, s.m_color.green⟩,
       ⟨s.m_bluePin, s.m_color.blue⟩]) ∧
    ({ s with m_state := .OFF, m_brightness := 255, m_color := ⟨255, 0, 0⟩ } : Arilux).turnOn.2
      = [⟨s.m_redPin, 255⟩, ⟨s.m_greenPin, 0⟩, ⟨s.m_bluePin, 0⟩] := by
  have h0 : toUint8 0 = 0 := toUint8_natCast 0 (by omega)
  have h255 : toUint8 255 = 255 := toUint8_natCast 255 (by omega)
  have hdiv : ∀ c : Nat, c * 255 / 255 = c := fun c => Nat.mul_div_cancel c (by omega)
  refine ⟨rfl, ?_, ?_, ?_, ?_, ?_, ?_, ?_, ?_, ?_, ?_, ?_⟩
  · intro h
    rw [turnOn_off s h]
    exact ⟨rfl, dutyWrites_law _ (wellFormed_state s .ON hwf)⟩
  · exact turnOn_on s
  · intro h r g b
    rw [setColor_on s r g b h, setColor_fst]
    exact ⟨h, dutyWrites_law _ (wellFormed_color s _ _ _ hwf (toUint8_lt r) (toUint8_lt g)
      (toUint8_lt b))⟩
  · intro h v
    rw [setBrightness_on s v h, setBrightness_fst]
    exact ⟨h, dutyWrites_law _ (wellFormed_brightness s _ hwf (toUint8_lt v))⟩
  · intro h
    rw [increaseBrightness_on s h, increaseBrightness_fst]
    exact ⟨h, dutyWrites_law _ (wellFormed_brightness s _ hwf
      (Nat.lt_succ_of_le (clamp_le _)))⟩
  · intro h
    rw [decreaseBrightness_on s h, decreaseBrightness_fst]
    exact ⟨h, dutyWrites_law _ (wellFormed_brightness s _ hwf
      (Nat.lt_succ_of_le (clamp_le _)))⟩
  · intro h
    rw [setBrightness_fst, turnOn_off ({ s with m_brightness := toUint8 0 }) h, h0]
    simp [dutyWrites, dutyOf, zeroWrites]
  · intro h
    rw [setBrightness_on s 0 h, setBrightness_fst, h0]
    simp [dutyWrites, dutyOf, zeroWrites]
  · intro h
    rw [setBrightness_fst, turnOn_off ({ s with m_brightness := toUint8 255 }) h, h255]
    simp [dutyWrites, dutyOf, hdiv]
  · intro h
    rw [setBrightness_on s 255 h, setBrightness_fst, h255]
    simp [dutyWrites, dutyOf, hdiv]
  · simp only [turnOn, dutyWrites, dutyOf]

theorem duty_law_witness :
    exampleOn.WellFormed ∧ exampleOn.m_state = .ON ∧
    (exampleOn.decreaseBrightness.1.getState = .ON ∧
      exampleOn.decreaseBrightness.1.DutyLaw exampleOn.decreaseBrightness.2) ∧
    exampleInitial.WellFormed ∧ exampleInitial.m_state = .OFF ∧
    (exampleInitial.turnOn.1.getState = .ON ∧
      exampleInitial.turnOn.1.DutyLaw exampleInitial.turnOn.2) :=
  ⟨by decide, rfl, (duty_law exampleOn (by decide)).2.2.2.2.2.2.1 rfl,
   by decide, rfl, (duty_law exampleInitial (by decide)).2.1 rfl⟩

/-- C8, as the claim states it, fails: an argument outside [0,255] is not
clamped.  `setBrightness(300)` stores 44, not 255; `setBrightness(-1)`
stores 255, not 0; `setColor(300,-1,256)` stores (44,255,0), not
(255,0,255). -/
theorem out_of_range_not_clamped :
    (exampleInitial.setBrightness 300).1.getBrightness = 44 ∧
    (exampleInitial.setBrightness 300).1.getBrightness ≠ clamp 300 ∧
    (exampleInitial.setBrightness (-1)).1.getBrightness = 255 ∧
    (exampleInitial.setBrightness (-1)).1.getBrightness ≠ clamp (-1) ∧
    (exampleInitial.setColor 300 (-1) 256).1.getRedValue = 44 ∧
    (exampleInitial.setColor 300 (-1) 256).1.getGreenValue = 255 ∧
    (exampleInitial.setColor 300 (-1) 256).1.getBlueValue = 0 ∧
    clamp 300 = 255 ∧ clamp (-1) = 0 ∧ clamp 256 = 255 := by
  refine ⟨by decide, by decide, by decide, by decide, by decide, by decide, by decide,
    by decide, by decide, by decide⟩

/-- C8, amended: an integer given as the brightness argument of
`setBrightness` or as a colour component of `setColor` is converted to the
8-bit unsigned parameter, so the value stored and returned by the getter is
the integer modulo 256: a value in [0,255], and the integer itself when it
lies in [0,255].  Every other field of the object is unchanged and a
well-formed object stays well-formed. -/
theorem out_of_range_inputs_wrap (s : Arilux) (v r g b : Int) :
    (s.setBrightness v).1.getBrightness = (v % 256).toNat ∧
    (s.setBrightness v).1.getBrightness ≤ 255 ∧
    (0 ≤ v → v ≤ 255 → ((s.setBrightness v).1.getBrightness : Int) = v) ∧
    (s.setBrightness v).1 = { s with m_brightness := (v % 256).toNat } ∧
    (s.setColor r g b).1.getRedValue = (r % 256).toNat ∧
    (s.setColor r g b).1.getGreenValue = (g % 256).toNat ∧
    (s.setColor r g b).1.getBlueValue = (b % 256).toNat ∧
    ((s.setColor r g b).1.getRedValue ≤ 255 ∧ (s.setColor r g b).1.getGreenValue ≤ 255 ∧
      (s.setColor r g b).1.getBlueValue ≤ 255) ∧
    (0 ≤ r → r ≤ 255 → ((s.setColor r g b).1.getRedValue : Int) = r) ∧
    (0 ≤ g → g ≤ 255 → ((s.setColor r g b).1.getGreenValue : Int) = g) ∧
    (0 ≤ b → b ≤ 255 → ((s.setColor r g b).1.getBlueValue : Int) = b) ∧
    (s.setColor r g b).1
      = { s with m_color := ⟨(r % 256).toNat, (g % 256).toNat, (b % 256).toNat⟩ } ∧
    (s.WellFormed → (s.setBrightness v).1.WellFormed ∧ (s.setColor r g b).1.WellFormed) := by
  rw [setBrightness_fst, setColor_fst]
  simp only [getBrightness, getRedValue, getGreenValue, getBlueValue]
  have hv := toUint8_lt v
  have hr := toUint8_lt r
  have hg := toUint8_lt g
  have hb := toUint8_lt b
  refine ⟨rfl, by omega, toUint8_of_range v, rfl, rfl, rfl, rfl, by omega,
    toUint8_of_range r, toUint8_of_range g, toUint8_of_range b, rfl, ?_⟩
  intro hwf
  exact ⟨wellFormed_brightness s _ hwf hv, wellFormed_color s _ _ _ hwf hr hg hb⟩

theorem out_of_range_inputs_wrap_witness :
    (0 : Int) ≤ 200 ∧ (200 : Int) ≤ 255 ∧
    ((exampleInitial.setBrightness 200).1.getBrightness : Int) = 200 :=
  ⟨by decide, by decide,
   (out_of_range_inputs_wrap exampleInitial 200 10 20 30).2.2.1 (by decide) (by decide)⟩

end Arilux
